import Mathlib

/-
Verification of `app/service/embedding/embedding_service.py`
(`EmbeddingService.create_embedding`).

The method wraps a single remote embedding call:
  * it records a wall-clock timestamp and a monotonic start instant
    (`time.perf_counter`),
  * builds a truncated preview of the input for diagnostic logging,
  * invokes `client.embeddings.create(input=input_text, model=model)`,
  * on `APIStatusError` captures the provider status code and message,
  * on any other `Exception` recovers a status code by matching the
    regular expression `status code (\d+)` against `str(e)`, defaulting
    to 500,
  * in a `finally` block writes one `add_error_log` entry when the call
    did not succeed and then always one `add_request_log` entry, after
    which the original exception (if any) propagates.

The embedding below is pure: the outcome of the remote call is a
parameter (`CallOutcome`), the two monotonic clock readings are rational
parameters, and the two database sinks are modelled by an ordered trace
of log events returned together with the call outcome.
-/

set_option autoImplicit false

namespace EmbeddingService

/-- The `input_text` argument: `Union[str, List[str]]`. -/
inductive EmbInput where
  | single (s : String)
  | list (xs : List String)
  deriving DecidableEq

/-- Exceptions that can escape the remote call inside the `try` block.
`apiStatusError` models `openai.APIStatusError` (which carries
`status_code` and whose `str` is its message), `genericError` models any
other `Exception` (its `str(e)` text), and `baseExc` models a
`BaseException` that is not an `Exception` (e.g. `KeyboardInterrupt` or
a cancellation), which neither `except` clause catches. -/
inductive PyErr where
  | apiStatusError (status_code : Nat) (msg : String)
  | genericError (msg : String)
  | baseExc (tag : String)
  deriving DecidableEq

/-- Result of the remote embedding call: normal return or a raised error. -/
inductive CallOutcome (α : Type) where
  | ok (resp : α)
  | err (e : PyErr)
  deriving DecidableEq

/-- Returns `true` on the normal-return constructor. -/
def CallOutcome.succeeded {α : Type} : CallOutcome α → Bool
  | .ok _ => true
  | .err _ => false

/-- The `request_msg_log` value: either
`{"input_truncated": [...]}` for list input or
`{"input_truncated": "..."}` for string input. -/
inductive RequestMsgLog where
  | listPreview (items : List String)
  | stringPreview (s : String)
  deriving DecidableEq

/-- One `add_error_log(...)` call, field for field. -/
structure ErrorLogEntry where
  gemini_key : String
  model_name : String
  error_type : String
  error_log : String
  error_code : Option Nat
  request_msg : RequestMsgLog
  deriving DecidableEq

/-- One `add_request_log(...)` call, field for field.  `latency_ms` is
`int((end_time - start_time) * 1000)`; `request_time` is the wall-clock
timestamp `datetime.datetime.now()`, opaque here. -/
structure RequestLogEntry where
  model_name : String
  api_key : String
  is_success : Bool
  status_code : Option Nat
  latency_ms : Int
  request_time : Nat
  deriving DecidableEq

/-- A database write performed by the `finally` block, in order. -/
inductive LogEvent where
  | errorEvt (e : ErrorLogEntry)
  | requestEvt (r : RequestLogEntry)
  deriving DecidableEq

/-- Configuration value `settings.BASE_URL`: the base endpoint of the provider.
It only parameterises the construction of the OpenAI client, whose call
outcome is already a parameter of the model. -/
structure Settings where
  BASE_URL : String
  deriving DecidableEq

/-- What a call to `create_embedding` produces: the value returned or
exception re-raised (`outcome`), plus the ordered database writes. -/
structure EmbedResult (α : Type) where
  outcome : CallOutcome α
  trace : List LogEvent
  deriving DecidableEq

/-- Python `int(q)` on a rational: truncation toward zero.  Written as
T-division of the numerator by the (positive) denominator. -/
def pyInt (q : ℚ) : Int := Int.tdiv q.num q.den

/-- Numeric value of an ASCII digit. -/
def digitVal (c : Char) : Nat := c.toNat - 48

/-- Value of `int(...)` on a string of digits, base 10. -/
def natOfDigits (cs : List Char) : Nat :=
  cs.foldl (fun a c => 10 * a + digitVal c) 0

/-- Whether the first list is an initial segment of the second. -/
def isPrefOf : List Char → List Char → Bool
  | [], _ => true
  | _ :: _, [] => false
  | p :: ps, c :: cs => p == c && isPrefOf ps cs

/-- The literal part of the pattern `status code (\d+)`. -/
def statusPat : List Char := "status code ".toList

/-- Try the regex `status code (\d+)` anchored at the start of `cs`:
the literal `"status code "` followed by a maximal non-empty run of
digits (the group is greedy). -/
def matchAt (cs : List Char) : Option Nat :=
  if isPrefOf statusPat cs then
    let ds := (cs.drop statusPat.length).takeWhile Char.isDigit
    if ds.isEmpty then none else some (natOfDigits ds)
  else none

/-- Model of `re.search` for the pattern `status code (\d+)`: the
leftmost matching position wins. -/
def searchStatus : List Char → Option Nat
  | [] => none
  | c :: cs =>
    match matchAt (c :: cs) with
    | some n => some n
    | none => searchStatus cs

/-- Status code recovered from a generic error's text
(`int(match.group(1))` if the pattern matched, else `500`).
The regex digit class is modelled by ASCII digits. -/
def parse_generic_status (s : String) : Nat :=
  (searchStatus s.toList).getD 500

/-- Element truncation inside the list preview:
`str(item)[:100] + "..." if len(str(item)) > 100 else str(item)`
(items are already strings, so `str(item) = item`). -/
def truncItem (s : String) : String :=
  if s.length > 100 then s.take 100 ++ "..." else s

/-- The `request_msg_log` computation (lines 29–35 of the source). -/
def request_msg_of : EmbInput → RequestMsgLog
  | .list xs =>
    let base := (xs.take 5).map truncItem
    .listPreview (if xs.length > 5 then base ++ ["..."] else base)
  | .single s =>
    .stringPreview (if s.length > 1000 then s.take 1000 ++ "..." else s)

/-- The state `(is_success, status_code, error_log_msg)` as left by the
`try`/`except` clauses for a given remote-call outcome.  A `baseExc`
matches neither `except APIStatusError` nor `except Exception`, so the
initial values (`False`, `None`, `""`) survive into the `finally`
block. -/
def handlerState {α : Type} : CallOutcome α → Bool × Option Nat × String
  | .ok _ => (true, some 200, "")
  | .err (.apiStatusError c m) => (false, some c, "OpenAI API error: " ++ m)
  | .err (.genericError m) =>
      (false, some (parse_generic_status m), "Generic error: " ++ m)
  | .err (.baseExc _) => (false, none, "")

/-- Shallow embedding of `EmbeddingService.create_embedding`.
`remote` is the outcome of `client.embeddings.create(...)`; `t0` and
`t1` are the two `time.perf_counter()` readings; `request_datetime` is
the opaque wall-clock timestamp.  The returned trace lists the
`finally` block's database writes in program order, and `outcome` is
the value returned or the exception that propagates afterwards. -/
def create_embedding {α : Type} (_settings : Settings) (input_text : EmbInput)
    (model api_key : String) (remote : CallOutcome α)
    (t0 t1 : ℚ) (request_datetime : Nat) : EmbedResult α :=
  let request_msg_log := request_msg_of input_text
  let st := handlerState remote
  let is_success := st.1
  let status_code := st.2.1
  let error_log_msg := st.2.2
  let latency_ms := pyInt ((t1 - t0) * 1000)
  let errorWrites : List LogEvent :=
    if is_success then []
    else [.errorEvt
      { gemini_key := api_key
        model_name := model
        error_type := "openai-embedding"
        error_log := error_log_msg
        error_code := status_code
        request_msg := request_msg_log }]
  let requestWrite : LogEvent := .requestEvt
    { model_name := model
      api_key := api_key
      is_success := is_success
      status_code := status_code
      latency_ms := latency_ms
      request_time := request_datetime }
  { outcome := remote
    trace := errorWrites ++ [requestWrite] }

/-- The `add_request_log` entries of a trace, in order. -/
def reqEntries : List LogEvent → List RequestLogEntry
  | [] => []
  | .requestEvt r :: tr => r :: reqEntries tr
  | .errorEvt _ :: tr => reqEntries tr

/-- The `add_error_log` entries of a trace, in order. -/
def errEntries : List LogEvent → List ErrorLogEntry
  | [] => []
  | .errorEvt e :: tr => e :: errEntries tr
  | .requestEvt _ :: tr => errEntries tr

/-- Whether `pat` occurs as a contiguous substring of `cs`. -/
def containsSub (pat : List Char) : List Char → Bool
  | [] => isPrefOf pat []
  | c :: cs => isPrefOf pat (c :: cs) || containsSub pat cs

/-- The input preview as the specification words it: for a sequence,
exactly the first 5 elements (each left alone when at most 100
characters, otherwise its first 100 characters with an ellipsis marker
appended) plus one trailing marker element exactly when the sequence
has more than 5 elements; for a single string, the string itself when
at most 1000 characters, otherwise its first 1000 characters plus an
ellipsis marker.  Written from the spec's words, to be compared with
`request_msg_of` (written from the source). -/
def preview_spec : EmbInput → RequestMsgLog
  | .list xs =>
      .listPreview
        (((xs.take 5).map fun s => if s.length ≤ 100 then s else s.take 100 ++ "...")
          ++ (if 5 < xs.length then ["..."] else []))
  | .single s =>
      .stringPreview (if s.length ≤ 1000 then s else s.take 1000 ++ "...")

theorem matchAt_nil : matchAt ([] : List Char) = none := rfl

theorem searchStatus_cons (c : Char) (cs : List Char) :
    searchStatus (c :: cs) =
      match matchAt (c :: cs) with
      | some n => some n
      | none => searchStatus cs := rfl

/-- If position `i` is the leftmost position where the pattern matches,
the search returns that match. -/
theorem searchStatus_of_first (cs : List Char) :
    ∀ (i n : Nat), matchAt (cs.drop i) = some n →
      (∀ j, j < i → matchAt (cs.drop j) = none) →
      searchStatus cs = some n := by
  induction cs with
  | nil =>
    intro i n hi _
    rw [List.drop_nil, matchAt_nil] at hi
    exact absurd hi (by simp)
  | cons c cs ih =>
    intro i n hi hj
    cases i with
    | zero =>
      rw [List.drop_zero] at hi
      rw [searchStatus_cons, hi]
    | succ k =>
      have h0 := hj 0 (Nat.succ_pos k)
      rw [List.drop_zero] at h0
      rw [searchStatus_cons, h0]
      exact ih k n (by simpa using hi)
        (fun j hjk => by simpa using hj (j + 1) (Nat.succ_lt_succ hjk))

/-- If the pattern matches at no position, the search fails. -/
theorem searchStatus_of_none (cs : List Char)
    (h : ∀ j, matchAt (cs.drop j) = none) : searchStatus cs = none := by
  induction cs with
  | nil => rfl
  | cons c cs ih =>
    have h0 := h 0
    rw [List.drop_zero] at h0
    rw [searchStatus_cons, h0]
    exact ih (fun j => by simpa using h (j + 1))

/-- Claim C1: every call to `create_embedding` — success, structured
provider failure, generic failure, or even an uncaught `BaseException` —
writes exactly one request log entry, and exactly one error log entry
if and only if the call did not succeed; the `finally` block runs on
every exit path. -/
theorem c1_one_request_log_and_error_log_iff_failure {α : Type}
    (st : Settings) (inp : EmbInput) (model key : String)
    (remote : CallOutcome α) (t0 t1 : ℚ) (d : Nat) :
    (reqEntries (create_embedding st inp model key remote t0 t1 d).trace).length = 1 ∧
    (errEntries (create_embedding st inp model key remote t0 t1 d).trace).length
      = (if (create_embedding st inp model key remote t0 t1 d).outcome.succeeded
         then 0 else 1) := by
  cases remote with
  | ok r =>
    simp [create_embedding, handlerState, reqEntries, errEntries, CallOutcome.succeeded]
  | err e =>
    cases e <;>
      simp [create_embedding, handlerState, reqEntries, errEntries, CallOutcome.succeeded]

/-- Claim C2: when the remote embedding call succeeds, `create_embedding`
returns the provider's response unmodified, the trace is exactly one
request log entry with `is_success = true` and `status_code = 200`, and
no error log entry is written. -/
theorem c2_success_returns_result_and_logs_200 {α : Type}
    (st : Settings) (inp : EmbInput) (model key : String) (resp : α)
    (t0 t1 : ℚ) (d : Nat) :
    (create_embedding st inp model key (.ok resp) t0 t1 d).outcome = .ok resp ∧
    ∃ lat : Int,
      (create_embedding st inp model key (.ok resp) t0 t1 d).trace
        = [.requestEvt
            { model_name := model, api_key := key, is_success := true
              status_code := some 200, latency_ms := lat, request_time := d }] :=
  ⟨rfl, pyInt ((t1 - t0) * 1000), rfl⟩

/-- Claim C3: when the provider raises `APIStatusError` with status `S`
and message `M`, the caller receives the same error carrying `S` and
`M`; exactly one error log entry is written whose `error_code` is `S`
and whose message ends in `M`, followed by exactly one request log
entry with `is_success = false` and `status_code = S`. -/
theorem c3_api_status_error_logged_and_propagated {α : Type}
    (st : Settings) (inp : EmbInput) (model key : String) (S : Nat) (M : String)
    (t0 t1 : ℚ) (d : Nat) :
    (create_embedding (α := α) st inp model key (.err (.apiStatusError S M)) t0 t1 d).outcome
      = .err (.apiStatusError S M) ∧
    ∃ (p : String) (lat : Int),
      (create_embedding (α := α) st inp model key (.err (.apiStatusError S M)) t0 t1 d).trace
        = [.errorEvt
            { gemini_key := key, model_name := model, error_type := "openai-embedding"
              error_log := p ++ M, error_code := some S
              request_msg := request_msg_of inp },
           .requestEvt
            { model_name := model, api_key := key, is_success := false
              status_code := some S, latency_ms := lat, request_time := d }] :=
  ⟨rfl, "OpenAI API error: ", pyInt ((t1 - t0) * 1000), rfl⟩

/-- Claim C4: on every failing call the original failure is what the
caller receives — `create_embedding` never suppresses or converts it. -/
theorem c4_propagates_original_failure {α : Type}
    (st : Settings) (inp : EmbInput) (model key : String) (e : PyErr)
    (t0 t1 : ℚ) (d : Nat) :
    (create_embedding (α := α) st inp model key (.err e) t0 t1 d).outcome = .err e := rfl

/-- Claim C5 counterexample: the generic error text `"status code 5030"`
contains the substring `"status code 503"`, yet the recovered status
code — also as logged by `create_embedding` — is 5030, not 503: the
regex group `(\d+)` is greedy, so it takes the whole digit run. -/
theorem c5_counterexample :
    containsSub ("status code 503".toList) ("status code 5030".toList) = true ∧
    parse_generic_status ("status code 5030") = 5030 ∧
    (reqEntries (create_embedding (α := Unit) ⟨"url"⟩ (.single ("x")) "m" "k"
        (.err (.genericError ("status code 5030"))) 0 0 0).trace).map
      RequestLogEntry.status_code = [some 5030] ∧
    5030 ≠ 503 :=
  ⟨by decide, by decide, by decide, by decide⟩

/-- Claim C5 (amended): for a call failing with an unstructured error,
the status code captured for logging is the value of the leftmost
occurrence of `status code <digits>` in the error's text, read with its
maximal digit run (in particular a leftmost match whose digit run is
`503` recovers 503); when the text matches the pattern at no position,
the status code defaults to 500; and the request log entry written by
`create_embedding` carries exactly this recovered code. -/
theorem c5_status_code_recovery :
    (∀ (s : String) (i n : Nat),
        matchAt (s.toList.drop i) = some n →
        (∀ j, j < i → matchAt (s.toList.drop j) = none) →
        parse_generic_status s = n) ∧
    (∀ s : String, (∀ j, matchAt (s.toList.drop j) = none) →
        parse_generic_status s = 500) ∧
    (∀ (α : Type) (st : Settings) (inp : EmbInput) (model key m : String)
        (t0 t1 : ℚ) (d : Nat),
        (reqEntries (create_embedding (α := α) st inp model key
            (.err (.genericError m)) t0 t1 d).trace).map RequestLogEntry.status_code
          = [some (parse_generic_status m)]) := by
  refine ⟨?_, ?_, ?_⟩
  · intro s i n hi hj
    unfold parse_generic_status
    rw [searchStatus_of_first s.toList i n hi hj]
    rfl
  · intro s h
    unfold parse_generic_status
    rw [searchStatus_of_none s.toList h]
    rfl
  · intro α st inp model key m t0 t1 d
    simp [create_embedding, handlerState, reqEntries]

/-- Claim C5 witness: a concrete text whose leftmost pattern match is at
position 3 with digit run `503`. -/
theorem c5_status_code_recovery_witness :
    matchAt (("ab status code 503!".toList).drop 3) = some 503 ∧
    parse_generic_status ("ab status code 503!") = 503 :=
  ⟨by decide,
   c5_status_code_recovery.1 ("ab status code 503!") 3 503 (by decide) (by decide)⟩

theorem truncItem_eq (s : String) :
    truncItem s = if s.length ≤ 100 then s else s.take 100 ++ "..." := by
  unfold truncItem
  rcases Nat.lt_or_ge 100 s.length with h | h
  · rw [if_pos h, if_neg (by omega)]
  · rw [if_neg (by omega), if_pos h]

theorem request_msg_of_eq_preview_spec (inp : EmbInput) :
    request_msg_of inp = preview_spec inp := by
  cases inp with
  | single s =>
    simp only [request_msg_of, preview_spec]
    rcases Nat.lt_or_ge 1000 s.length with h | h
    · rw [if_pos h, if_neg (by omega)]
    · rw [if_neg (by omega), if_pos h]
  | list xs =>
    simp only [request_msg_of, preview_spec]
    rw [show truncItem = (fun s => if s.length ≤ 100 then s else s.take 100 ++ "...")
      from funext truncItem_eq]
    rcases Nat.lt_or_ge 5 xs.length with h5 | h5
    · rw [if_pos h5, if_pos h5]
    · rw [if_neg (Nat.not_lt.2 h5), if_neg (Nat.not_lt.2 h5), List.append_nil]

/-- Claim C6: the diagnostic input preview computed by the service (and
logged on every failing call) is exactly the spec's preview: for a
sequence, the first 5 elements each truncated to 100 characters with an
ellipsis marker when longer, plus one trailing marker element exactly
when the sequence has more than 5 elements; for a single string, the
string itself when at most 1000 characters, otherwise its first 1000
characters plus an ellipsis marker. -/
theorem c6_input_preview_truncation {α : Type}
    (st : Settings) (inp : EmbInput) (model key : String) (e : PyErr)
    (t0 t1 : ℚ) (d : Nat) :
    request_msg_of inp = preview_spec inp ∧
    (errEntries (create_embedding (α := α) st inp model key (.err e) t0 t1 d).trace).map
        ErrorLogEntry.request_msg = [preview_spec inp] := by
  refine ⟨request_msg_of_eq_preview_spec inp, ?_⟩
  cases e <;>
    simp [create_embedding, handlerState, errEntries, request_msg_of_eq_preview_spec inp]

/-- Claim C7: the trace of database writes always ends with the single
request log write; when an error log write occurs it is strictly
earlier, and both writes are part of the result handed back before the
outcome (return value or re-raised failure) reaches the caller. -/
theorem c7_error_log_happens_before_request_log {α : Type}
    (st : Settings) (inp : EmbInput) (model key : String)
    (remote : CallOutcome α) (t0 t1 : ℚ) (d : Nat) :
    ∃ r : RequestLogEntry,
      (create_embedding st inp model key remote t0 t1 d).trace = [.requestEvt r]
      ∨ ∃ e : ErrorLogEntry,
          (create_embedding st inp model key remote t0 t1 d).trace
            = [.errorEvt e, .requestEvt r] := by
  cases remote with
  | ok resp => exact ⟨_, Or.inl rfl⟩
  | err e => cases e <;> exact ⟨_, Or.inr ⟨_, rfl⟩⟩

/-- Claim C8 counterexample: on a concrete failing call with credential
`"sk-secret-key"`, both the error log entry (field `gemini_key`) and the
request log entry (field `api_key`) handed to the sinks carry the
complete credential value. -/
theorem c8_counterexample :
    (errEntries (create_embedding (α := Unit) ⟨"url"⟩ (.single ("hi")) "text-embed-1"
        "sk-secret-key" (.err (.genericError ("boom"))) 0 0 0).trace).map
      ErrorLogEntry.gemini_key = ["sk-secret-key"] ∧
    (reqEntries (create_embedding (α := Unit) ⟨"url"⟩ (.single ("hi")) "text-embed-1"
        "sk-secret-key" (.err (.genericError ("boom"))) 0 0 0).trace).map
      RequestLogEntry.api_key = ["sk-secret-key"] :=
  ⟨by decide, by decide⟩

/-- Claim C8 (amended): the credential is stored in full, per the
existing convention: on every call the request log entry's `api_key`
field is the complete credential, and on every failing call so is the
error log entry's `gemini_key` field. -/
theorem c8_credential_stored_in_full {α : Type}
    (st : Settings) (inp : EmbInput) (model key : String)
    (remote : CallOutcome α) (t0 t1 : ℚ) (d : Nat) :
    (reqEntries (create_embedding st inp model key remote t0 t1 d).trace).map
        RequestLogEntry.api_key = [key] ∧
    (errEntries (create_embedding st inp model key remote t0 t1 d).trace).map
        ErrorLogEntry.gemini_key
      = (if (create_embedding st inp model key remote t0 t1 d).outcome.succeeded
         then [] else [key]) := by
  cases remote with
  | ok r =>
    simp [create_embedding, handlerState, reqEntries, errEntries, CallOutcome.succeeded]
  | err e =>
    cases e <;>
      simp [create_embedding, handlerState, reqEntries, errEntries, CallOutcome.succeeded]

/-- Claim C9: whatever the outcome, the single request log entry's
latency field is `int((t1 - t0) * 1000)` — an integer number of
milliseconds — and it is non-negative whenever the second monotonic
clock reading is at least the first (which `time.perf_counter`
guarantees). -/
theorem c9_latency_nonneg {α : Type}
    (st : Settings) (inp : EmbInput) (model key : String)
    (remote : CallOutcome α) (t0 t1 : ℚ) (d : Nat) (h : t0 ≤ t1) :
    (reqEntries (create_embedding st inp model key remote t0 t1 d).trace).map
        RequestLogEntry.latency_ms = [pyInt ((t1 - t0) * 1000)] ∧
    0 ≤ pyInt ((t1 - t0) * 1000) := by
  constructor
  · cases remote with
    | ok r => simp [create_embedding, handlerState, reqEntries, errEntries]
    | err e => cases e <;> simp [create_embedding, handlerState, reqEntries, errEntries]
  · have hq : (0 : ℚ) ≤ (t1 - t0) * 1000 :=
      mul_nonneg (sub_nonneg.2 h) (by norm_num)
    exact Int.tdiv_nonneg (Rat.num_nonneg.2 hq) (Int.ofNat_nonneg _)

/-- Claim C9 witness: a concrete call with clock readings 0 and 2. -/
theorem c9_latency_nonneg_witness :
    (0 : ℚ) ≤ 2 ∧
    ((reqEntries (create_embedding (α := Unit) ⟨"url"⟩ (.single ("x")) "m" "k"
        (.ok ()) 0 2 0).trace).map RequestLogEntry.latency_ms
      = [pyInt ((2 - 0) * 1000)] ∧
    0 ≤ pyInt (((2 : ℚ) - 0) * 1000)) :=
  ⟨by norm_num,
   c9_latency_nonneg ⟨"url"⟩ (.single ("x")) "m" "k" (.ok ()) 0 2 0 (by norm_num)⟩

/-- Claim C10: when the remote call raises a `BaseException` that is not
an `Exception` (neither handler catches it), the `finally` block still
writes an error log entry with an empty message and a null status code,
then a request log entry with `is_success = false` and a null status
code, before that exception propagates unchanged to the caller. -/
theorem c10_base_exception_still_logged {α : Type}
    (st : Settings) (inp : EmbInput) (model key : String) (tag : String)
    (t0 t1 : ℚ) (d : Nat) :
    (create_embedding (α := α) st inp model key (.err (.baseExc tag)) t0 t1 d).outcome
      = .err (.baseExc tag) ∧
    ∃ lat : Int,
      (create_embedding (α := α) st inp model key (.err (.baseExc tag)) t0 t1 d).trace
        = [.errorEvt
            { gemini_key := key, model_name := model, error_type := "openai-embedding"
              error_log := "", error_code := none
              request_msg := request_msg_of inp },
           .requestEvt
            { model_name := model, api_key := key, is_success := false
              status_code := none, latency_ms := lat, request_time := d }] :=
  ⟨rfl, pyInt ((t1 - t0) * 1000), rfl⟩

end EmbeddingService
